import Mathlib

/-!
Verification development for the pipelabs-dashboard backend.

Shallow embedding of the credential vault (app/core/encryption.py), the
connector provisioner (app/services/hummingbot.py), the scope resolver
(app/services/agent_service.py and app/api/agent_chat.py), the action
validator and command router (app/services/agent.py), the credential
creation endpoint (app/api/admin.py), and the AI tool-calling chat loop
(app/api/agent.py).

Python strings are modelled as Lean strings; byte strings as lists of
natural numbers below 256; machine floats used for risk limits as
rationals; database rows as records in explicit list-backed tables; HTTP
calls to the external trading-execution service as explicit outcome
values supplied by the environment.
-/

/-! ## String helpers shared by several components -/

/-- Character for the blank space, written via its code point to keep
character literals simple. -/
def spaceChar : Char := Char.ofNat 32

/-- Character for the underscore. -/
def underscoreChar : Char := Char.ofNat 95

/-- Character for the hyphen. -/
def hyphenChar : Char := Char.ofNat 45

/-- Python str.lower restricted to the ASCII range, which is all the code
applies it to (exchange identifiers, client display names, commands). -/
def lowerStr (s : String) : String := String.mk (s.data.map Char.toLower)

/-- Python str.replace applied with a single-character pattern, as in
name.replace(space, underscore). -/
def replaceChar (pat rep : Char) (s : String) : String :=
  String.mk (s.data.map (fun ch => if ch = pat then rep else ch))

/-- Account-name derivation rule used identically by the provisioner
(hummingbot.py line 145), the scope resolver (agent_service.py lines
75-76) and the chat endpoint (agent_chat.py line 65):
"client_" followed by the lowercased display name with spaces replaced
by underscores. -/
def accountName (clientName : String) : String :=
  "client_" ++ replaceChar spaceChar underscoreChar (lowerStr clientName)

/-- Exchange identifier normalization from admin.py line 506:
lowercase and hyphens replaced by underscores. -/
def normalizeExchange (s : String) : String :=
  replaceChar hyphenChar underscoreChar (lowerStr s)

/-- Python substring containment, needle in hay, as list search. -/
def listContains (needle hay : List Char) : Bool :=
  match hay with
  | [] => needle.isEmpty
  | _ :: t => needle.isPrefixOf hay || listContains needle t

/-! ## Base64, urlsafe alphabet (used by EncryptionManager) -/

/-- Urlsafe base64 alphabet: sextet index to ASCII code. -/
def sextetToByte (i : Nat) : Nat :=
  if i < 26 then 65 + i
  else if i < 52 then 97 + (i - 26)
  else if i < 62 then 48 + (i - 52)
  else if i = 62 then 45
  else 95

/-- Urlsafe base64 alphabet: ASCII code back to sextet index, none for a
byte outside the alphabet. -/
def byteToSextet (b : Nat) : Option Nat :=
  if 65 ≤ b ∧ b ≤ 90 then some (b - 65)
  else if 97 ≤ b ∧ b ≤ 122 then some (b - 97 + 26)
  else if 48 ≤ b ∧ b ≤ 57 then some (b - 48 + 52)
  else if b = 45 then some 62
  else if b = 95 then some 63
  else none

/-- base64.urlsafe_b64encode on a byte list, with padding byte 61. -/
def urlsafe_b64encode : List Nat → List Nat
  | [] => []
  | [a] => [sextetToByte (a / 4), sextetToByte (a % 4 * 16), 61, 61]
  | [a, b] => [sextetToByte (a / 4), sextetToByte (a % 4 * 16 + b / 16),
      sextetToByte (b % 16 * 4), 61]
  | a :: b :: c :: rest =>
      sextetToByte (a / 4) :: sextetToByte (a % 4 * 16 + b / 16) ::
      sextetToByte (b % 16 * 4 + c / 64) :: sextetToByte (c % 64) ::
      urlsafe_b64encode rest

/-- base64.urlsafe_b64decode on a byte list; none models the binascii
error raised on malformed input. -/
def urlsafe_b64decode : List Nat → Option (List Nat)
  | [] => some []
  | c0 :: c1 :: c2 :: c3 :: rest =>
    match byteToSextet c0, byteToSextet c1 with
    | some s0, some s1 =>
      if c2 = 61 then
        if c3 = 61 ∧ rest = [] then some [s0 * 4 + s1 / 16] else none
      else
        match byteToSextet c2 with
        | some s2 =>
          if c3 = 61 then
            if rest = [] then some [s0 * 4 + s1 / 16, s1 % 16 * 16 + s2 / 4]
            else none
          else
            match byteToSextet c3 with
            | some s3 =>
              (urlsafe_b64decode rest).map
                (fun tl => (s0 * 4 + s1 / 16) :: (s1 % 16 * 16 + s2 / 4) ::
                  (s2 % 4 * 64 + s3) :: tl)
            | none => none
        | none => none
    | _, _ => none
  | _ => none

/-- ASCII byte list rendered as a Python str (the .decode() call on the
base64 output, which is always ASCII). -/
def asciiToString (l : List Nat) : String := String.mk (l.map Char.ofNat)

/-- Python str.encode() on a string known to be ASCII (the stored
ciphertext), recovering the byte list. -/
def stringToAscii (s : String) : List Nat := s.data.map Char.toNat

/-! ## Credential vault (app/core/encryption.py) -/

/-- Interface of the Fernet cipher object constructed in
EncryptionManager.__init__ from the PBKDF2-derived key. The library is
external to the repository, so it enters the embedding as an abstract
symmetric cipher: enc produces a nonempty token byte string, dec inverts
enc, and dec returns none on any other token, modelling the InvalidToken
error raised on tampered or foreign-key ciphertext. -/
structure FernetCipher where
  enc : String → List Nat
  dec : List Nat → Option String
  enc_byte : ∀ s, ∀ b ∈ enc s, b < 256
  enc_ne : ∀ s, enc s ≠ []
  dec_enc : ∀ s, dec (enc s) = some s

/-- EncryptionManager.encrypt: empty plaintext short-circuits to the
empty string; otherwise the Fernet token is urlsafe-base64 encoded and
decoded to text. -/
def EncryptionManager.encrypt (c : FernetCipher) (plaintext : String) : String :=
  if plaintext = "" then ""
  else asciiToString (urlsafe_b64encode (c.enc plaintext))

/-- EncryptionManager.decrypt: empty input short-circuits to the empty
string; otherwise base64-decode then Fernet-decrypt, with none modelling
a raised error on malformed base64 or an invalid token. -/
def EncryptionManager.decrypt (c : FernetCipher) (encrypted : String) : Option String :=
  if encrypted = "" then some ""
  else
    match urlsafe_b64decode (stringToAscii encrypted) with
    | none => none
    | some token => c.dec token

/-- Per-character three-byte big-endian-free code point encoding, used
only to exhibit a concrete FernetCipher instance. -/
def encChar (c : Char) : List Nat :=
  [c.toNat % 256, c.toNat / 256 % 256, c.toNat / 65536]

/-- Encode a character list byte by byte, for the concrete cipher. -/
def encodeChars : List Char → List Nat
  | [] => []
  | c :: cs => encChar c ++ encodeChars cs

/-- Decode the three-byte groups produced by encodeChars. -/
def decodeChars : List Nat → Option (List Char)
  | [] => some []
  | b0 :: b1 :: b2 :: rest =>
      (decodeChars rest).map
        (fun cs => Char.ofNat (b0 + 256 * b1 + 65536 * b2) :: cs)
  | _ => none

/-- A concrete FernetCipher instance, witnessing that the abstract cipher
interface is satisfiable. -/
def demoCipher : FernetCipher where
  enc s := 0 :: encodeChars s.data
  dec l :=
    match l with
    | 0 :: rest => (decodeChars rest).map String.mk
    | _ => none
  enc_byte := by
    have key : ∀ cs, ∀ b ∈ encodeChars cs, b < 256 := by
      intro cs
      induction cs with
      | nil => simp [encodeChars]
      | cons c cs ih =>
        intro b hb
        have hc : c.toNat < 1114112 := by
          have hv := c.valid
          have he : c.toNat = c.val.toNat := rfl
          rcases hv with hv | hv
          · rw [he]; omega
          · rw [he]; omega
        simp only [encodeChars, encChar, List.cons_append, List.nil_append,
          List.mem_cons] at hb
        rcases hb with rfl | rfl | rfl | hb
        · omega
        · omega
        · omega
        · exact ih b hb
    intro s b hb
    rcases List.mem_cons.mp hb with rfl | hb
    · omega
    · exact key s.data b hb
  enc_ne := by intro s; simp
  dec_enc := by
    have key : ∀ cs, decodeChars (encodeChars cs) = some cs := by
      intro cs
      induction cs with
      | nil => rfl
      | cons c cs ih =>
        have hstep : encodeChars (c :: cs) =
            c.toNat % 256 :: c.toNat / 256 % 256 :: c.toNat / 65536 ::
            encodeChars cs := by
          simp [encodeChars, encChar]
        rw [hstep, decodeChars, ih]
        have hc : c.toNat % 256 + 256 * (c.toNat / 256 % 256) +
            65536 * (c.toNat / 65536) = c.toNat := by omega
        simp [hc, Char.ofNat_toNat]
    intro s
    simp only [key, Option.map_some]
    rfl

/-! ## Persisted rows and scope resolution
(app/services/agent_service.py, app/api/agent_chat.py) -/

/-- Client row: id, display name, login email and the optional risk
settings stored in the settings JSON column. -/
structure ClientRow where
  id : String
  name : String
  email : String
  max_spread : Option ℚ := none
  max_daily_volume : Option ℚ := none
  confirm_threshold : Option ℚ := none
deriving DecidableEq

/-- ExchangeAPIKey row with the vault-encrypted fields. -/
structure ApiKeyRow where
  id : String
  client_id : String
  exchange : String
  api_key : String
  api_secret : String
  passphrase : Option String := none
  label : String := ""
  is_testnet : Bool := false
  is_active : Bool := true
deriving DecidableEq

/-- ClientPair row: one configured trading pair owned by one client. -/
structure PairRow where
  client_id : String
  trading_pair : String
deriving DecidableEq

/-- The persistence layer visible to scope resolution: three list-backed
tables. -/
structure DB where
  clients : List ClientRow
  apiKeys : List ApiKeyRow
  clientPairs : List PairRow
deriving DecidableEq

/-- ClientScope from app/services/agent.py lines 51-84: what one client
is allowed to access, plus risk limits. -/
structure ClientScope where
  client_id : String
  client_name : String
  allowed_accounts : List String
  allowed_pairs : List String
  allowed_exchanges : List String
  max_spread : ℚ := mkRat 1 2
  max_daily_volume : ℚ := 50000
  confirm_threshold : ℚ := 100
deriving DecidableEq

/-- ScopedAgentService.get_client_scope (agent_service.py lines 55-91):
look the client up by id, read its active ExchangeAPIKey rows and its
ClientPair rows with queries filtered on the requested client id, derive
the single account name, and apply the 0.5 / 50000 / 100 setting
defaults. The list(set(..)) of the source is modelled by dedup, which
preserves membership. none models the raised ValueError when the client
record is missing. -/
def get_client_scope (db : DB) (client_id : String) : Option ClientScope :=
  match db.clients.find? (fun c => c.id == client_id) with
  | none => none
  | some client =>
    let exchanges := db.apiKeys.filter
      (fun k => k.client_id == client_id && k.is_active)
    let pairs := db.clientPairs.filter (fun p => p.client_id == client_id)
    some
      { client_id := client.id
        client_name := client.name
        allowed_accounts := [accountName client.name]
        allowed_pairs := (pairs.map (fun p => p.trading_pair)).dedup
        allowed_exchanges := (exchanges.map (fun k => k.exchange)).dedup
        max_spread := client.max_spread.getD (mkRat 1 2)
        max_daily_volume := client.max_daily_volume.getD 50000
        confirm_threshold := client.confirm_threshold.getD 100 }

/-- Default pair list hard-coded in agent_chat.py line 71 in place of a
ClientPair query. -/
def defaultChatPairs : List String :=
  ["SHARP-USDT", "BTC-USDT", "ETH-USDT", "SOL-USDT"]

/-- Scope construction of the agent_chat endpoint (agent_chat.py lines
40-82): client looked up by the authenticated email, active api key rows
filtered on that client id, account name derived from the display name,
exchanges lowercased and deduplicated, and the allowed pair list taken
from the hard-coded default. none models the 404 when no client row
matches and the early no-keys return. -/
def agent_chat_scope (db : DB) (userEmail : String) : Option ClientScope :=
  match db.clients.find? (fun c => c.email == userEmail) with
  | none => none
  | some client =>
    let api_keys := db.apiKeys.filter
      (fun k => k.client_id == client.id && k.is_active)
    if api_keys.isEmpty then none
    else
      some
        { client_id := client.id
          client_name := client.name
          allowed_accounts := [accountName client.name]
          allowed_pairs := defaultChatPairs
          allowed_exchanges := (api_keys.map (fun k => lowerStr k.exchange)).dedup
          max_spread := mkRat 1 2
          max_daily_volume := 50000
          confirm_threshold := 100 }

/-! ## Action validator (app/services/agent.py lines 97-129) -/

/-- A proposed trading action as the open dict the source passes around:
every field is optional, mirroring action.get of the Python code. spread
and volume default to 0 through getD at the use sites. -/
structure TradingAction where
  action : Option String := none
  account_name : Option String := none
  trading_pair : Option String := none
  connector_name : Option String := none
  spread : Option ℚ := none
  volume : Option ℚ := none
deriving DecidableEq

/-- Denial message for an out-of-scope account, built as in line 105. -/
def accountDenial (v : String) : String :=
  "Access denied: Account " ++ (v ++ " not in your scope")

/-- Denial message for an out-of-scope trading pair, line 110. -/
def pairDenial (v : String) : String :=
  "Access denied: Trading pair " ++ (v ++ " not in your scope")

/-- Denial message for an out-of-scope exchange, line 115. -/
def exchangeDenial (v : String) : String :=
  "Access denied: Exchange " ++ (v ++ " not in your scope")

/-- Denial message for an excessive spread, line 121. -/
def spreadDenial (spread maxSpread : ℚ) : String :=
  "Spread " ++ toString spread ++ "% exceeds maximum " ++
    toString maxSpread ++ "%"

/-- Denial message for an excessive volume, line 127. -/
def volumeDenial (volume maxVolume : ℚ) : String :=
  "Volume $" ++ toString volume ++ " exceeds daily limit $" ++
    toString maxVolume

/-- Account check, lines 103-105: fires only when the field is present,
truthy (non-empty) and not in the allowed list. -/
def checkAccount (a : TradingAction) (s : ClientScope) : Option String :=
  match a.account_name with
  | none => none
  | some v =>
    if v ≠ "" ∧ v ∉ s.allowed_accounts then some (accountDenial v) else none

/-- Trading pair check, lines 108-110. -/
def checkPair (a : TradingAction) (s : ClientScope) : Option String :=
  match a.trading_pair with
  | none => none
  | some v =>
    if v ≠ "" ∧ v ∉ s.allowed_pairs then some (pairDenial v) else none

/-- Exchange check, lines 113-115. -/
def checkExchange (a : TradingAction) (s : ClientScope) : Option String :=
  match a.connector_name with
  | none => none
  | some v =>
    if v ≠ "" ∧ v ∉ s.allowed_exchanges then some (exchangeDenial v) else none

/-- Spread limit check, lines 118-121, applied only to
place_spread_order actions, with the missing-field default 0. -/
def checkSpread (a : TradingAction) (s : ClientScope) : Option String :=
  if a.action = some "place_spread_order" ∧ a.spread.getD 0 > s.max_spread
  then some (spreadDenial (a.spread.getD 0) s.max_spread)
  else none

/-- Volume limit check, lines 124-127, applied only to generate_volume
actions, with the missing-field default 0. -/
def checkVolume (a : TradingAction) (s : ClientScope) : Option String :=
  if a.action = some "generate_volume" ∧ a.volume.getD 0 > s.max_daily_volume
  then some (volumeDenial (a.volume.getD 0) s.max_daily_volume)
  else none

/-- ScopedAgentService.validate_action: the five checks in source order
with early return on the first failure; (true, none) means permitted. -/
def validate_action (a : TradingAction) (s : ClientScope) : Bool × Option String :=
  match checkAccount a s with
  | some e => (false, some e)
  | none =>
    match checkPair a s with
    | some e => (false, some e)
    | none =>
      match checkExchange a s with
      | some e => (false, some e)
      | none =>
        match checkSpread a s with
        | some e => (false, some e)
        | none =>
          match checkVolume a s with
          | some e => (false, some e)
          | none => (true, none)

/-- The action dict built by the refresh branch of
execute_trading_command (agent.py lines 176-182), generalized over its
field values: a RefreshSpread action. -/
def mkSpreadAction (acct pair conn : String) (spread : ℚ) : TradingAction :=
  { action := some "place_spread_order"
    account_name := some acct
    trading_pair := some pair
    connector_name := some conn
    spread := some spread
    volume := none }

/-! ## Connector provisioner (app/services/hummingbot.py lines 133-229) -/

/-- Outcome of one outbound HTTP call to the trading bridge, supplied by
the environment: a status response with body, a timeout
(httpx.TimeoutException), or a transport failure (other raised error). -/
inductive CallResult where
  | status (code : Nat) (body : String)
  | timeout
  | failure (msg : String)
deriving DecidableEq

/-- Behaviour of the external trading bridge for the two provisioning
calls issued by configure_client_account. -/
structure Bridge where
  createAccount : CallResult
  addConnector : CallResult
deriving DecidableEq

/-- Credential record handed to the provisioner (the freshly stored
ExchangeAPIKey row fields it reads). -/
structure ApiKeyRecord where
  exchange : String
  api_key : String
  api_secret : String
  passphrase : Option String := none
deriving DecidableEq

/-- Result dict returned by configure_client_account. -/
structure ProvisionResult where
  success : Bool
  account_name : Option String := none
  connector : Option String := none
  error : Option String := none
  message : String
deriving DecidableEq

/-- Status handling of the account-creation call, hummingbot.py line
163: 200, 201 and 409 (already exists) are all success. -/
def handleCreateStatus (code : Nat) : Bool :=
  code = 200 || code = 201 || code = 409

/-- Account-creation step, lines 156-181: timeout and transport errors
raise; a status outside the accepted set raises; 200/201/409 proceed. -/
def createAccountStep : CallResult → Except String Unit
  | CallResult.timeout =>
      Except.error "Trading Bridge timeout: Service did not respond within 30 seconds"
  | CallResult.failure m => Except.error m
  | CallResult.status code _ =>
      if handleCreateStatus code then Except.ok ()
      else Except.error ("Failed to create account: HTTP " ++ toString code)

/-- Optional memo decryption for the connector payload, lines 193-194:
absent passphrase adds nothing; a present one is decrypted, and a
decryption error raises. -/
def decryptMemo (d : String → Except String String) :
    Option String → Except String (Option String)
  | none => Except.ok none
  | some p => (d p).map some

/-- Connector-addition step, lines 196-214: raise_for_status models 4xx
and 5xx as raised HTTPStatusError; timeouts and transport errors raise. -/
def addConnectorStep (account connector : String) :
    CallResult → Except String ProvisionResult
  | CallResult.timeout =>
      Except.error "Trading Bridge timeout: Service did not respond when adding connector"
  | CallResult.failure m => Except.error m
  | CallResult.status code body =>
      if 400 ≤ code then
        Except.error ("HTTP " ++ toString code ++
          ": Failed to add connector - " ++ body)
      else
        Except.ok
          { success := true
            account_name := some account
            connector := some connector
            error := none
            message := "Successfully configured " ++ account ++ " with " ++
              connector ++ " in Trading Bridge" }

/-- Body of configure_client_account inside its try: derive the account
name, decrypt key and secret, create the account, decrypt the optional
memo, add the connector. Any error escapes to the wrapper. d models
decrypt_api_key and may fail with a decryption error. -/
def configureBody (d : String → Except String String) (client_name : String)
    (rec : ApiKeyRecord) (bridge : Bridge) : Except String ProvisionResult :=
  match d rec.api_key with
  | Except.error e => Except.error e
  | Except.ok _api_key =>
    match d rec.api_secret with
    | Except.error e => Except.error e
    | Except.ok _api_secret =>
      match createAccountStep bridge.createAccount with
      | Except.error e => Except.error e
      | Except.ok _ =>
        match decryptMemo d rec.passphrase with
        | Except.error e => Except.error e
        | Except.ok _memo =>
          addConnectorStep (accountName client_name)
            (lowerStr rec.exchange) bridge.addConnector

/-- HummingbotService.configure_client_account, lines 133-229: the body
runs inside try, and the outer except Exception turns ANY raised error,
a decryption failure included, into a returned failed-provisioning dict
with success false, never re-raising. -/
def configure_client_account (d : String → Except String String)
    (client_name : String) (rec : ApiKeyRecord) (bridge : Bridge) :
    ProvisionResult :=
  match configureBody d client_name rec bridge with
  | Except.ok r => r
  | Except.error e =>
      { success := false
        account_name := none
        connector := none
        error := some e
        message := "Failed to configure Trading Bridge account" }

/-- Modelled from the spec: semantics of the external execution service
for POST /accounts/create over its persistent account set (spec section
6: 200/201 on creation, 409 when the account already exists). The
service itself lives outside this repository. -/
def serviceCreate (accounts : List String) (name : String) :
    Nat × List String :=
  if name ∈ accounts then (409, accounts) else (201, name :: accounts)

/-! ## Credential creation endpoint (app/api/admin.py lines 450-581) -/

/-- Request payload of add_client_api_key. -/
structure KeyData where
  exchange : String
  api_key : String
  api_secret : String
  passphrase : Option String := none
  label : Option String := none
  is_testnet : Bool := false
deriving DecidableEq

/-- The ExchangeAPIKey row as built in admin.py lines 509-521: encrypted
fields, normalized exchange, truthiness-based defaults for passphrase
and label, active flag set. -/
def mkStoredRow (c : FernetCipher) (client_id : String) (data : KeyData) :
    ApiKeyRow :=
  { id := "new"
    client_id := client_id
    exchange := normalizeExchange data.exchange
    api_key := EncryptionManager.encrypt c data.api_key
    api_secret := EncryptionManager.encrypt c data.api_secret
    passphrase :=
      match data.passphrase with
      | some p => if p = "" then none else some (EncryptionManager.encrypt c p)
      | none => none
    label :=
      match data.label with
      | some l => if l = "" then data.exchange ++ " API Key" else l
      | none => data.exchange ++ " API Key"
    is_testnet := data.is_testnet
    is_active := true }

/-- Events the endpoint performs against the outside world, recorded in
order: the database commit and the provisioning attempt. -/
inductive ProvEvent where
  | commit
  | provisionAttempt
deriving DecidableEq

/-- Response of add_client_api_key, admin.py lines 570-581. -/
structure AddKeyResponse where
  message : String
  trading_bridge_configured : Bool
  trading_bridge_warning : Option String
deriving DecidableEq

/-- add_client_api_key happy path after client lookup and encryption
succeed (admin.py lines 494-581): build the encrypted row, commit it,
then attempt provisioning, and always answer with the
successful-creation message, attaching a warning exactly when
provisioning reported failure. The provisioning behaviour is a
parameter; configure_client_account never raises, so the except
branches around it are dead and the result dict drives the warning. -/
def add_client_api_key (c : FernetCipher) (db : List ApiKeyRow)
    (client_id : String) (data : KeyData)
    (provision : ApiKeyRow → ProvisionResult) :
    List ApiKeyRow × AddKeyResponse × List ProvEvent :=
  let newRow := mkStoredRow c client_id data
  let committed := db ++ [newRow]
  let hb := provision newRow
  let resp : AddKeyResponse :=
    { message := "API key added successfully"
      trading_bridge_configured := hb.success
      trading_bridge_warning :=
        if hb.success then none
        else some ("Trading Bridge connector initialization failed: " ++
          (hb.error.getD "Unknown error") ++
          ". Use Reinitialize button to retry.") }
  (committed, resp, [ProvEvent.commit, ProvEvent.provisionAttempt])

/-! ## Credential creation endpoint (app/api/api_keys.py lines 66-177) -/

/-- Response model of api_keys.py create_api_key (class APIKeyResponse,
lines 43-56), with the constant timestamp and notes fields omitted.
It has no warning or provisioning-status field of any kind. -/
structure APIKeyResponse where
  id : String
  client_id : String
  exchange : String
  label : Option String
  is_active : Bool
  is_testnet : Bool
  api_key_preview : String
  has_passphrase : Bool
deriving DecidableEq

/-- Preview construction of api_keys.py line 155: first six and last
four characters when the plaintext key is longer than ten characters,
otherwise three stars. -/
def apiKeyPreview (k : String) : String :=
  if k.length > 10 then
    String.mk (k.data.take 6) ++ "..." ++
      String.mk (k.data.drop (k.data.length - 4))
  else "***"

/-- The ExchangeAPIKey row as built in api_keys.py lines 119-130: same
normalization and encryption as the admin endpoint, but the label is
stored as given (the nullable column is modelled by the empty string
for None). The client id arrives inside the request payload. -/
def create_api_key_row (c : FernetCipher) (client_id : String)
    (data : KeyData) : ApiKeyRow :=
  { id := "new"
    client_id := client_id
    exchange := normalizeExchange data.exchange
    api_key := EncryptionManager.encrypt c data.api_key
    api_secret := EncryptionManager.encrypt c data.api_secret
    passphrase :=
      match data.passphrase with
      | some p => if p = "" then none else some (EncryptionManager.encrypt c p)
      | none => none
    label := data.label.getD ""
    is_testnet := data.is_testnet
    is_active := true }

/-- The response built in api_keys.py lines 158-171, from the committed
row and the request payload only; bool(data.passphrase) is Python
truthiness. -/
def apiKeyResponseOf (client_id : String) (data : KeyData)
    (row : ApiKeyRow) : APIKeyResponse :=
  { id := row.id
    client_id := client_id
    exchange := row.exchange
    label := data.label
    is_active := row.is_active
    is_testnet := row.is_testnet
    api_key_preview := apiKeyPreview data.api_key
    has_passphrase :=
      match data.passphrase with
      | some p => p != ""
      | none => false }

/-- api_keys.py create_api_key happy path after client lookup and
encryption succeed (lines 117-171): build the encrypted row, commit it,
then attempt provisioning inside a try whose failure branches only
write to the log (lines 146-152), and return the APIKeyResponse, which
is built from the payload and the committed row alone, so the
provisioning outcome never reaches the response. -/
def create_api_key (c : FernetCipher) (db : List ApiKeyRow)
    (client_id : String) (data : KeyData)
    (provision : ApiKeyRow → ProvisionResult) :
    List ApiKeyRow × APIKeyResponse × List ProvEvent :=
  let newRow := create_api_key_row c client_id data
  let committed := db ++ [newRow]
  let _hb := provision newRow
  (committed, apiKeyResponseOf client_id data newRow,
    [ProvEvent.commit, ProvEvent.provisionAttempt])

/-! ## AI tool-calling chat loop (app/api/agent.py lines 162-268) -/

/-- One model answer in the tool loop: either a batch of tool-call
requests (stop_reason tool_use) or final text. -/
inductive ModelResponse where
  | toolUse
  | finalText (text : String)
deriving DecidableEq

/-- The chat endpoint loop, which runs while response.stop_reason is
tool_use and re-queries the model each round, with NO round counter in
the source. oracle i is the model answer to the i-th request. The extra
fuel argument is an observation bound of the embedding, not part of the
code: some t means the endpoint returned text t within that many rounds,
none means the loop was still running. -/
def chatToolLoop (oracle : Nat → ModelResponse) : Nat → Nat → Option String
  | _, 0 => none
  | i, fuel + 1 =>
    match oracle i with
    | ModelResponse.finalText t => some t
    | ModelResponse.toolUse => chatToolLoop oracle (i + 1) fuel

/-- Run of the chat endpoint from the first model request. -/
def chatEndpointRun (oracle : Nat → ModelResponse) (fuel : Nat) :
    Option String :=
  chatToolLoop oracle 0 fuel

/-- A model that requests tool calls on every round. -/
def allToolUse : Nat → ModelResponse := fun _ => ModelResponse.toolUse

/-! ## Chat routing (app/services/agent.py lines 258-301) -/

/-- The direct-command markers of agent.py line 277. -/
def directCommands : List String := ["check", "refresh", "price", "run volume"]

/-- The routing condition of agent.py line 277: any marker occurring as
a substring anywhere in the lowercased message. -/
def isDirectCommand (message : String) : Bool :=
  directCommands.any (fun cmd => listContains cmd.data (lowerStr message).data)

/-- The three disjoint paths ScopedAgentService.chat can take. -/
inductive ChatPath where
  | notConfigured
  | direct
  | claude
deriving DecidableEq

/-- Routing layer of ScopedAgentService.chat: without an API key the
not-configured reply returns early; a message matching a direct-command
marker goes to execute_trading_command; only the remaining messages
reach the Claude messages.create call. -/
def chatRoute (configured : Bool) (message : String) : ChatPath :=
  if !configured then ChatPath.notConfigured
  else if isDirectCommand message then ChatPath.direct
  else ChatPath.claude

/-- Number of requests a path issues to the AI chat-completion
provider. -/
def aiRequests : ChatPath → Nat
  | ChatPath.claude => 1
  | _ => 0

/-! ## Concrete inputs used by counterexamples and witnesses -/

/-- A trading action carries an offending value w for scope s when one
of its three identity fields is present, truthy and outside the
corresponding allowed set. -/
def offendingValue (a : TradingAction) (s : ClientScope) (w : String) : Prop :=
  (a.account_name = some w ∧ w ≠ "" ∧ w ∉ s.allowed_accounts) ∨
  (a.trading_pair = some w ∧ w ≠ "" ∧ w ∉ s.allowed_pairs) ∨
  (a.connector_name = some w ∧ w ≠ "" ∧ w ∉ s.allowed_exchanges)

/-- Scope of a sample tenant with one account, one pair, one exchange
and the default risk limits. -/
def demoScope : ClientScope :=
  { client_id := "c1"
    client_name := "Acme Trading"
    allowed_accounts := ["client_acme_trading"]
    allowed_pairs := ["BTC-USDT"]
    allowed_exchanges := ["bitmart"]
    max_spread := mkRat 1 2
    max_daily_volume := 50000
    confirm_threshold := 100 }

/-- An action whose account field is present but empty. -/
def emptyAccountAction : TradingAction := { account_name := some "" }

/-- A spread order whose pair field is omitted entirely. -/
def pairlessSpreadAction : TradingAction :=
  { action := some "place_spread_order"
    account_name := some "client_acme_trading"
    connector_name := some "bitmart"
    spread := some (mkRat 3 10) }

/-- An action referencing an account outside demoScope. -/
def accountViolAction : TradingAction :=
  { account_name := some "client_other" }

/-- Database with one tenant owning one active bitmart credential and no
configured pair rows. -/
def c1db : DB :=
  { clients := [{ id := "c1", name := "Acme", email := "acme@x" }]
    apiKeys := [{ id := "k1", client_id := "c1", exchange := "bitmart",
                  api_key := "ek", api_secret := "es" }]
    clientPairs := [] }

/-- Database with one tenant owning one active bitmart credential and
one configured pair row. -/
def c1db2 : DB :=
  { clients := [{ id := "c1", name := "Acme", email := "acme@x" }]
    apiKeys := [{ id := "k1", client_id := "c1", exchange := "bitmart",
                  api_key := "ek", api_secret := "es" }]
    clientPairs := [{ client_id := "c1", trading_pair := "BTC-USDT" }] }

/-- The scope get_client_scope resolves for tenant c1 of c1db2. -/
def c1scope : ClientScope :=
  { client_id := "c1"
    client_name := "Acme"
    allowed_accounts := ["client_acme"]
    allowed_pairs := ["BTC-USDT"]
    allowed_exchanges := ["bitmart"]
    max_spread := mkRat 1 2
    max_daily_volume := 50000
    confirm_threshold := 100 }

/-- A decrypt function that fails on every ciphertext, modelling
decrypt_api_key on tampered ciphertext. -/
def tamperedDecrypt : String → Except String String :=
  fun _ => Except.error "DecryptionError: invalid token"

/-- A decrypt function failing as on ciphertext produced under a foreign
key. -/
def foreignKeyDecrypt : String → Except String String :=
  fun _ => Except.error "InvalidToken"

/-- A sample stored credential record. -/
def demoKeyRecord : ApiKeyRecord :=
  { exchange := "bitmart", api_key := "ek", api_secret := "es" }

/-- A trading bridge that answers both provisioning calls with
success. -/
def demoBridge : Bridge :=
  { createAccount := CallResult.status 201 ""
    addConnector := CallResult.status 200 "" }

/-- A sample credential-creation payload. -/
def demoKeyData : KeyData :=
  { exchange := "bit-mart", api_key := "K", api_secret := "S" }

/-- A provisioning behaviour that always reports failure. -/
def demoProvisionFail : ApiKeyRow → ProvisionResult :=
  fun _ =>
    { success := false
      account_name := none
      connector := none
      error := some "Trading Bridge timeout"
      message := "Failed to configure Trading Bridge account" }

/-- A provisioning behaviour that always reports success. -/
def demoProvisionOk : ApiKeyRow → ProvisionResult :=
  fun r =>
    { success := true
      account_name := some "client_acme"
      connector := some r.exchange
      error := none
      message := "Successfully configured" }

/-! ## Lemmas: base64 round trip -/

/-- Case analysis following the three-byte chunk structure of the base64
encoder. -/
theorem chunkCases {motive : List Nat → Prop} (h0 : motive [])
    (h1 : ∀ a, motive [a]) (h2 : ∀ a b, motive [a, b])
    (h3 : ∀ a b c rest, motive rest → motive (a :: b :: c :: rest)) :
    ∀ l, motive l := by
  have key : ∀ n l, List.length l ≤ n → motive l := by
    intro n
    induction n with
    | zero =>
      intro l hl
      have hnil : l = [] := List.eq_nil_of_length_eq_zero (Nat.le_zero.mp hl)
      rw [hnil]; exact h0
    | succ n ih =>
      intro l hl
      match l with
      | [] => exact h0
      | [a] => exact h1 a
      | [a, b] => exact h2 a b
      | a :: b :: c :: rest =>
        refine h3 a b c rest (ih rest ?_)
        simp only [List.length_cons] at hl
        omega
  intro l
  exact key l.length l le_rfl

/-- The base64 alphabet maps are mutually inverse on sextets. -/
theorem byteToSextet_sextetToByte :
    ∀ i, i < 64 → byteToSextet (sextetToByte i) = some i := by decide

/-- No alphabet character is the padding byte 61. -/
theorem sextetToByte_ne_pad : ∀ i, i < 64 → sextetToByte i ≠ 61 := by decide

/-- Every alphabet character is ASCII. -/
theorem sextetToByte_lt128 : ∀ i, sextetToByte i < 128 := by
  intro i
  unfold sextetToByte
  split_ifs <;> omega

/-- All bytes emitted by the encoder are ASCII. -/
theorem b64encode_lt128 : ∀ l, ∀ x ∈ urlsafe_b64encode l, x < 128 := by
  refine chunkCases ?_ ?_ ?_ ?_
  · simp [urlsafe_b64encode]
  · intro a x hx
    simp only [urlsafe_b64encode, List.mem_cons, List.not_mem_nil,
      or_false] at hx
    rcases hx with rfl | rfl | rfl | rfl <;>
      first | exact sextetToByte_lt128 _ | omega
  · intro a b x hx
    simp only [urlsafe_b64encode, List.mem_cons, List.not_mem_nil,
      or_false] at hx
    rcases hx with rfl | rfl | rfl | rfl <;>
      first | exact sextetToByte_lt128 _ | omega
  · intro a b c rest ih x hx
    simp only [urlsafe_b64encode, List.mem_cons] at hx
    rcases hx with rfl | rfl | rfl | rfl | hx
    · exact sextetToByte_lt128 _
    · exact sextetToByte_lt128 _
    · exact sextetToByte_lt128 _
    · exact sextetToByte_lt128 _
    · exact ih x hx

/-- The encoder never returns the empty list on nonempty input. -/
theorem b64encode_ne_nil : ∀ a t, urlsafe_b64encode (a :: t) ≠ [] := by
  intro a t
  match t with
  | [] => simp [urlsafe_b64encode]
  | [b] => simp [urlsafe_b64encode]
  | b :: c :: rest => simp [urlsafe_b64encode]

/-- Decoding inverts encoding on byte lists. -/
theorem b64decode_encode :
    ∀ l, (∀ b ∈ l, b < 256) → urlsafe_b64decode (urlsafe_b64encode l) = some l := by
  refine chunkCases ?_ ?_ ?_ ?_
  · intro _; rfl
  · intro a hb
    have ha : a < 256 := hb a (by simp)
    have e0 := byteToSextet_sextetToByte (a / 4) (by omega)
    have e1 := byteToSextet_sextetToByte (a % 4 * 16) (by omega)
    simp only [urlsafe_b64encode, urlsafe_b64decode, e0, e1]
    simp only [if_pos rfl, and_self, reduceIte]
    congr 1
    congr 1
    omega
  · intro a b hb
    have ha : a < 256 := hb a (by simp)
    have hbb : b < 256 := hb b (by simp)
    have e0 := byteToSextet_sextetToByte (a / 4) (by omega)
    have e1 := byteToSextet_sextetToByte (a % 4 * 16 + b / 16) (by omega)
    have e2 := byteToSextet_sextetToByte (b % 16 * 4) (by omega)
    have n2 := sextetToByte_ne_pad (b % 16 * 4) (by omega)
    simp only [urlsafe_b64encode, urlsafe_b64decode, e0, e1]
    rw [if_neg n2]
    simp only [e2, if_pos rfl, reduceIte]
    congr 1
    congr 1
    · omega
    · congr 1
      omega
  · intro a b c rest ih hb
    have ha : a < 256 := hb a (by simp)
    have hbb : b < 256 := hb b (by simp)
    have hc : c < 256 := hb c (by simp)
    have hrest : ∀ x ∈ rest, x < 256 := fun x hx => hb x (by simp [hx])
    have e0 := byteToSextet_sextetToByte (a / 4) (by omega)
    have e1 := byteToSextet_sextetToByte (a % 4 * 16 + b / 16) (by omega)
    have e2 := byteToSextet_sextetToByte (b % 16 * 4 + c / 64) (by omega)
    have e3 := byteToSextet_sextetToByte (c % 64) (by omega)
    have n2 := sextetToByte_ne_pad (b % 16 * 4 + c / 64) (by omega)
    have n3 := sextetToByte_ne_pad (c % 64) (by omega)
    simp only [urlsafe_b64encode, urlsafe_b64decode, e0, e1]
    rw [if_neg n2]
    simp only [e2]
    rw [if_neg n3]
    rw [ih hrest]
    simp only [Option.map, e3]
    congr 1
    congr 1
    · omega
    · congr 1
      · omega
      · congr 1
        omega

/-! ## Lemmas: ASCII string round trip -/

/-- Char.ofNat is inverted by Char.toNat on the ASCII range. -/
theorem toNat_ofNat_ascii : ∀ b, b < 128 → (Char.ofNat b).toNat = b := by
  decide

/-- Mapping to characters and back is the identity on ASCII byte
lists. -/
theorem map_toNat_ofNat :
    ∀ l : List Nat, (∀ b ∈ l, b < 128) →
      (l.map Char.ofNat).map Char.toNat = l := by
  intro l
  induction l with
  | nil => intro _; rfl
  | cons a t ih =>
    intro h
    have ha : a < 128 := h a (by simp)
    simp only [List.map_cons]
    rw [toNat_ofNat_ascii a ha, ih (fun b hb => h b (by simp [hb]))]

/-- Re-encoding the rendered ASCII string recovers the byte list. -/
theorem stringToAscii_asciiToString :
    ∀ l, (∀ b ∈ l, b < 128) → stringToAscii (asciiToString l) = l := by
  intro l h
  exact map_toNat_ofNat l h

/-- Rendering a nonempty byte list yields a nonempty string. -/
theorem asciiToString_ne_nil : ∀ l : List Nat, l ≠ [] → asciiToString l ≠ "" := by
  intro l hl hcontra
  apply hl
  have hd : (asciiToString l).data = ("" : String).data := by rw [hcontra]
  have hmap : l.map Char.ofNat = [] := hd
  exact List.map_eq_nil_iff.mp hmap

/-- Claim C5: for every string x, the empty string included, decrypting
the encryption of x returns x; the empty string round-trips to the empty
string and neither operation fails on it (the embedding returns rather
than raising, and decrypt yields some). Holds for every cipher
satisfying the Fernet interface. -/
theorem claim_C5_roundtrip (c : FernetCipher) (x : String) :
    EncryptionManager.decrypt c (EncryptionManager.encrypt c x) = some x := by
  by_cases hx : x = ""
  · rw [hx]; rfl
  · unfold EncryptionManager.encrypt
    rw [if_neg hx]
    unfold EncryptionManager.decrypt
    have henc : urlsafe_b64encode (c.enc x) ≠ [] := by
      cases hnil : c.enc x with
      | nil => exact absurd hnil (c.enc_ne x)
      | cons a t => exact b64encode_ne_nil a t
    have hne : asciiToString (urlsafe_b64encode (c.enc x)) ≠ "" :=
      asciiToString_ne_nil _ henc
    rw [if_neg hne]
    rw [stringToAscii_asciiToString _ (b64encode_lt128 (c.enc x))]
    rw [b64decode_encode _ (c.enc_byte x)]
    exact c.dec_enc x

/-- Sanity check: the concrete cipher instance round-trips a sample
secret through the full vault pipeline. -/
theorem vault_demo_roundtrip :
    EncryptionManager.decrypt demoCipher
      (EncryptionManager.encrypt demoCipher "secret") = some "secret" := by
  decide

/-- Sanity check: the empty string encrypts to the empty string and
decrypts back without failure. -/
theorem vault_demo_empty :
    EncryptionManager.encrypt demoCipher "" = "" ∧
    EncryptionManager.decrypt demoCipher "" = some "" :=
  ⟨rfl, rfl⟩

/-! ## Lemmas: validator evaluation -/

/-- The validator denies with the account message when the account check
fires. -/
theorem validate_eq_account {a : TradingAction} {s : ClientScope} {e : String}
    (h : checkAccount a s = some e) : validate_action a s = (false, some e) := by
  unfold validate_action
  rw [h]

/-- The validator denies with the pair message when the account check
passes and the pair check fires. -/
theorem validate_eq_pair {a : TradingAction} {s : ClientScope} {e : String}
    (h1 : checkAccount a s = none) (h2 : checkPair a s = some e) :
    validate_action a s = (false, some e) := by
  unfold validate_action
  rw [h1, h2]

/-- The validator denies with the exchange message when the first two
checks pass and the exchange check fires. -/
theorem validate_eq_exchange {a : TradingAction} {s : ClientScope} {e : String}
    (h1 : checkAccount a s = none) (h2 : checkPair a s = none)
    (h3 : checkExchange a s = some e) :
    validate_action a s = (false, some e) := by
  unfold validate_action
  rw [h1, h2, h3]

/-- The validator denies with the spread message when the three field
checks pass and the spread check fires. -/
theorem validate_eq_spread {a : TradingAction} {s : ClientScope} {e : String}
    (h1 : checkAccount a s = none) (h2 : checkPair a s = none)
    (h3 : checkExchange a s = none) (h4 : checkSpread a s = some e) :
    validate_action a s = (false, some e) := by
  unfold validate_action
  rw [h1, h2, h3, h4]

/-- The validator permits when all five checks pass. -/
theorem validate_eq_ok {a : TradingAction} {s : ClientScope}
    (h1 : checkAccount a s = none) (h2 : checkPair a s = none)
    (h3 : checkExchange a s = none) (h4 : checkSpread a s = none)
    (h5 : checkVolume a s = none) :
    validate_action a s = (true, none) := by
  unfold validate_action
  rw [h1, h2, h3, h4, h5]

/-- Inversion of a firing account check. -/
theorem checkAccount_some {a : TradingAction} {s : ClientScope} {e : String}
    (h : checkAccount a s = some e) :
    ∃ v, a.account_name = some v ∧ v ≠ "" ∧ v ∉ s.allowed_accounts ∧
      e = accountDenial v := by
  cases hv : a.account_name with
  | none => simp only [checkAccount, hv] at h; cases h
  | some v =>
    simp only [checkAccount, hv] at h
    by_cases hcond : v ≠ "" ∧ v ∉ s.allowed_accounts
    · rw [if_pos hcond] at h
      exact ⟨v, rfl, hcond.1, hcond.2, (Option.some.injEq _ _ ▸ h).symm⟩
    · rw [if_neg hcond] at h; cases h

/-- Inversion of a firing pair check. -/
theorem checkPair_some {a : TradingAction} {s : ClientScope} {e : String}
    (h : checkPair a s = some e) :
    ∃ v, a.trading_pair = some v ∧ v ≠ "" ∧ v ∉ s.allowed_pairs ∧
      e = pairDenial v := by
  cases hv : a.trading_pair with
  | none => simp only [checkPair, hv] at h; cases h
  | some v =>
    simp only [checkPair, hv] at h
    by_cases hcond : v ≠ "" ∧ v ∉ s.allowed_pairs
    · rw [if_pos hcond] at h
      exact ⟨v, rfl, hcond.1, hcond.2, (Option.some.injEq _ _ ▸ h).symm⟩
    · rw [if_neg hcond] at h; cases h

/-- Inversion of a firing exchange check. -/
theorem checkExchange_some {a : TradingAction} {s : ClientScope} {e : String}
    (h : checkExchange a s = some e) :
    ∃ v, a.connector_name = some v ∧ v ≠ "" ∧ v ∉ s.allowed_exchanges ∧
      e = exchangeDenial v := by
  cases hv : a.connector_name with
  | none => simp only [checkExchange, hv] at h; cases h
  | some v =>
    simp only [checkExchange, hv] at h
    by_cases hcond : v ≠ "" ∧ v ∉ s.allowed_exchanges
    · rw [if_pos hcond] at h
      exact ⟨v, rfl, hcond.1, hcond.2, (Option.some.injEq _ _ ▸ h).symm⟩
    · rw [if_neg hcond] at h; cases h

/-- A passing account check rules out a truthy out-of-scope account. -/
theorem checkAccount_none {a : TradingAction} {s : ClientScope}
    (h : checkAccount a s = none) :
    ¬ ∃ v, a.account_name = some v ∧ v ≠ "" ∧ v ∉ s.allowed_accounts := by
  rintro ⟨v, hv, hne, hnm⟩
  simp only [checkAccount, hv] at h
  rw [if_pos ⟨hne, hnm⟩] at h
  cases h

/-- A passing pair check rules out a truthy out-of-scope pair. -/
theorem checkPair_none {a : TradingAction} {s : ClientScope}
    (h : checkPair a s = none) :
    ¬ ∃ v, a.trading_pair = some v ∧ v ≠ "" ∧ v ∉ s.allowed_pairs := by
  rintro ⟨v, hv, hne, hnm⟩
  simp only [checkPair, hv] at h
  rw [if_pos ⟨hne, hnm⟩] at h
  cases h

/-- A passing exchange check rules out a truthy out-of-scope exchange. -/
theorem checkExchange_none {a : TradingAction} {s : ClientScope}
    (h : checkExchange a s = none) :
    ¬ ∃ v, a.connector_name = some v ∧ v ≠ "" ∧ v ∉ s.allowed_exchanges := by
  rintro ⟨v, hv, hne, hnm⟩
  simp only [checkExchange, hv] at h
  rw [if_pos ⟨hne, hnm⟩] at h
  cases h

/-- Claim C2 (amended): whenever an action carries a present, NON-EMPTY
account, pair or connector value outside the corresponding allowed set,
validation denies, and the denial message embeds the offending value of
the first violated check; an empty-string field value, by contrast, is
skipped by the truthiness guard (see the counterexample). -/
theorem claim_C2_denial_names_value :
    ∀ (a : TradingAction) (s : ClientScope) (v : String),
      offendingValue a s v →
      (validate_action a s).1 = false ∧
      ∃ m w, (validate_action a s).2 = some m ∧ offendingValue a s w ∧
        ∃ p q, m = p ++ (w ++ q) := by
  intro a s v hv
  cases hca : checkAccount a s with
  | some e =>
    obtain ⟨w, hw1, hw2, hw3, rfl⟩ := checkAccount_some hca
    rw [validate_eq_account hca]
    exact ⟨rfl, accountDenial w, w, rfl, Or.inl ⟨hw1, hw2, hw3⟩,
      "Access denied: Account ", " not in your scope", rfl⟩
  | none =>
    cases hcp : checkPair a s with
    | some e =>
      obtain ⟨w, hw1, hw2, hw3, rfl⟩ := checkPair_some hcp
      rw [validate_eq_pair hca hcp]
      exact ⟨rfl, pairDenial w, w, rfl, Or.inr (Or.inl ⟨hw1, hw2, hw3⟩),
        "Access denied: Trading pair ", " not in your scope", rfl⟩
    | none =>
      cases hce : checkExchange a s with
      | some e =>
        obtain ⟨w, hw1, hw2, hw3, rfl⟩ := checkExchange_some hce
        rw [validate_eq_exchange hca hcp hce]
        exact ⟨rfl, exchangeDenial w, w, rfl,
          Or.inr (Or.inr ⟨hw1, hw2, hw3⟩),
          "Access denied: Exchange ", " not in your scope", rfl⟩
      | none =>
        exfalso
        rcases hv with h | h | h
        · exact checkAccount_none hca ⟨v, h⟩
        · exact checkPair_none hcp ⟨v, h⟩
        · exact checkExchange_none hce ⟨v, h⟩

/-- Witness for claim C2 (amended): an action naming a foreign account
is denied and the denial message embeds that account. -/
theorem claim_C2_witness :
    (validate_action accountViolAction demoScope).1 = false ∧
    ∃ m w, (validate_action accountViolAction demoScope).2 = some m ∧
      offendingValue accountViolAction demoScope w ∧
      ∃ p q, m = p ++ (w ++ q) :=
  claim_C2_denial_names_value accountViolAction demoScope "client_other"
    (Or.inl ⟨rfl, by decide, by decide⟩)

/-- Counterexample to claim C2 as stated: an action carrying the account
field with the empty-string value, which is not a member of the allowed
set, is nevertheless validated as permitted with no denial, because the
Python truthiness guard skips empty values. -/
theorem claim_C2_counterexample :
    validate_action emptyAccountAction demoScope = (true, none) ∧
    emptyAccountAction.account_name = some "" ∧
    "" ∉ demoScope.allowed_accounts := by
  refine ⟨by decide, rfl, by decide⟩

/-- A pair check with an omitted or empty pair field passes against
every scope. -/
theorem checkPair_skip {a : TradingAction} (h : a.trading_pair.getD "" = "") :
    ∀ s, checkPair a s = none := by
  intro s
  cases hv : a.trading_pair with
  | none => simp only [checkPair, hv]
  | some v =>
    rw [hv] at h
    simp only [Option.getD] at h
    simp only [checkPair, hv, h]
    rw [if_neg (by simp)]

/-- An account check with an omitted or empty account field passes
against every scope. -/
theorem checkAccount_skip {a : TradingAction}
    (h : a.account_name.getD "" = "") : ∀ s, checkAccount a s = none := by
  intro s
  cases hv : a.account_name with
  | none => simp only [checkAccount, hv]
  | some v =>
    rw [hv] at h
    simp only [Option.getD] at h
    simp only [checkAccount, hv, h]
    rw [if_neg (by simp)]

/-- An exchange check with an omitted or empty connector field passes
against every scope. -/
theorem checkExchange_skip {a : TradingAction}
    (h : a.connector_name.getD "" = "") : ∀ s, checkExchange a s = none := by
  intro s
  cases hv : a.connector_name with
  | none => simp only [checkExchange, hv]
  | some v =>
    rw [hv] at h
    simp only [Option.getD] at h
    simp only [checkExchange, hv, h]
    rw [if_neg (by simp)]

/-- Claim C3 (amended): in the source, actions are open dicts and the
validator checks pair, account and connector membership only when the
field is present and non-empty; an action omitting (or leaving empty)
such a field is validated without that membership check, so the
validation outcome is independent of the corresponding allowed set. -/
theorem claim_C3_omitted_field_skips_check :
    (∀ (a : TradingAction) (s : ClientScope) (ps : List String),
      a.trading_pair.getD "" = "" →
      validate_action a s = validate_action a { s with allowed_pairs := ps }) ∧
    (∀ (a : TradingAction) (s : ClientScope) (accts : List String),
      a.account_name.getD "" = "" →
      validate_action a s =
        validate_action a { s with allowed_accounts := accts }) ∧
    (∀ (a : TradingAction) (s : ClientScope) (exs : List String),
      a.connector_name.getD "" = "" →
      validate_action a s =
        validate_action a { s with allowed_exchanges := exs }) := by
  refine ⟨?_, ?_, ?_⟩
  · intro a s ps h
    have h1 : checkPair a s = none := checkPair_skip h s
    have h2 : checkPair a { s with allowed_pairs := ps } = none :=
      checkPair_skip h _
    unfold validate_action
    rw [h1, h2]
    rfl
  · intro a s accts h
    have h1 : checkAccount a s = none := checkAccount_skip h s
    have h2 : checkAccount a { s with allowed_accounts := accts } = none :=
      checkAccount_skip h _
    unfold validate_action
    rw [h1, h2]
    rfl
  · intro a s exs h
    have h1 : checkExchange a s = none := checkExchange_skip h s
    have h2 : checkExchange a { s with allowed_exchanges := exs } = none :=
      checkExchange_skip h _
    unfold validate_action
    rw [h1, h2]
    rfl

/-- Witness for claim C3 (amended): the spread order with no pair field
validates identically whether the allowed-pair set is the configured one
or empty. -/
theorem claim_C3_witness :
    validate_action pairlessSpreadAction demoScope =
      validate_action pairlessSpreadAction
        { demoScope with allowed_pairs := [] } :=
  claim_C3_omitted_field_skips_check.1 pairlessSpreadAction demoScope [] rfl

/-- Counterexample to claim C3 as stated: a place_spread_order action
that omits its pair field entirely is validated as permitted against a
scope whose allowed-pair set it was never checked against, so the
pair-membership check was skipped, not enforced by construction. -/
theorem claim_C3_counterexample :
    validate_action pairlessSpreadAction demoScope = (true, none) ∧
    pairlessSpreadAction.trading_pair = none ∧
    demoScope.allowed_pairs = ["BTC-USDT"] := by
  refine ⟨by decide, rfl, rfl⟩

/-- Claim C9: a RefreshSpread action whose remaining fields are in scope
is permitted exactly when its spread does not exceed the maximum; the
boundary value is permitted and any strictly larger spread is denied. -/
theorem claim_C9_spread_boundary :
    ∀ (s : ClientScope) (acct pair conn : String) (spread : ℚ),
      acct ∈ s.allowed_accounts → pair ∈ s.allowed_pairs →
      conn ∈ s.allowed_exchanges →
      (spread ≤ s.max_spread →
        validate_action (mkSpreadAction acct pair conn spread) s =
          (true, none)) ∧
      (s.max_spread < spread →
        (validate_action (mkSpreadAction acct pair conn spread) s).1 =
          false) := by
  intro s acct pair conn spread h1 h2 h3
  have hca : checkAccount (mkSpreadAction acct pair conn spread) s = none := by
    simp only [checkAccount, mkSpreadAction]
    rw [if_neg (by simp [h1])]
  have hcp : checkPair (mkSpreadAction acct pair conn spread) s = none := by
    simp only [checkPair, mkSpreadAction]
    rw [if_neg (by simp [h2])]
  have hce : checkExchange (mkSpreadAction acct pair conn spread) s = none := by
    simp only [checkExchange, mkSpreadAction]
    rw [if_neg (by simp [h3])]
  constructor
  · intro hle
    have hcs : checkSpread (mkSpreadAction acct pair conn spread) s = none := by
      unfold checkSpread
      rw [if_neg (fun hcontra => absurd hcontra.2 (by simp [mkSpreadAction, not_lt.mpr hle]))]
    have hcv : checkVolume (mkSpreadAction acct pair conn spread) s = none := by
      unfold checkVolume
      rw [if_neg (fun hcontra => absurd hcontra.1 (by simp [mkSpreadAction]))]
    exact validate_eq_ok hca hcp hce hcs hcv
  · intro hgt
    have hcs : checkSpread (mkSpreadAction acct pair conn spread) s =
        some (spreadDenial spread s.max_spread) := by
      unfold checkSpread
      rw [if_pos ⟨rfl, hgt⟩]
      rfl
    rw [validate_eq_spread hca hcp hce hcs]

/-- Witness for claim C9: in the demo scope with maximum spread 1/2, a
spread of exactly 1/2 is permitted and a spread of 3/4 is denied. -/
theorem claim_C9_witness :
    validate_action
      (mkSpreadAction "client_acme_trading" "BTC-USDT" "bitmart" (mkRat 1 2))
      demoScope = (true, none) ∧
    (validate_action
      (mkSpreadAction "client_acme_trading" "BTC-USDT" "bitmart" (mkRat 3 4))
      demoScope).1 = false :=
  ⟨(claim_C9_spread_boundary demoScope _ _ _ _ (by decide) (by decide)
      (by decide)).1 (by decide),
   (claim_C9_spread_boundary demoScope _ _ _ _ (by decide) (by decide)
      (by decide)).2 (by decide)⟩

/-- Claim C1 (amended): in get_client_scope every member of the three
allowed sets is traceable to a row owned by the requested tenant (an
active credential row for each exchange, a configured pair row for each
pair, the display name of the tenant record for the single account), and
the queries behind them filter on the requested tenant id. In the
agent_chat endpoint the account and exchange members are likewise
traceable to the authenticated tenant, but the allowed-pair set is the
hard-coded default list, not derived from the tenant pair rows (nor from
any other tenant data). -/
theorem claim_C1_scope_traceability :
    (∀ (db : DB) (cid : String) (s : ClientScope),
      get_client_scope db cid = some s →
      (∀ e ∈ s.allowed_exchanges, ∃ k, k ∈ db.apiKeys ∧ k.client_id = cid ∧
        k.is_active = true ∧ k.exchange = e) ∧
      (∀ p ∈ s.allowed_pairs, ∃ r, r ∈ db.clientPairs ∧ r.client_id = cid ∧
        r.trading_pair = p) ∧
      (∃ c, c ∈ db.clients ∧ c.id = cid ∧
        s.allowed_accounts = [accountName c.name])) ∧
    (∀ (db : DB) (em : String) (s : ClientScope),
      agent_chat_scope db em = some s →
      (∀ e ∈ s.allowed_exchanges, ∃ k, k ∈ db.apiKeys ∧
        k.client_id = s.client_id ∧ k.is_active = true ∧
        lowerStr k.exchange = e) ∧
      (∃ c, c ∈ db.clients ∧ c.email = em ∧ c.id = s.client_id ∧
        s.allowed_accounts = [accountName c.name]) ∧
      s.allowed_pairs = defaultChatPairs) := by
  constructor
  · intro db cid s hs
    unfold get_client_scope at hs
    cases hfind : db.clients.find? (fun c => c.id == cid) with
    | none => rw [hfind] at hs; cases hs
    | some client =>
      rw [hfind] at hs
      have hmem := List.mem_of_find?_eq_some hfind
      have hid : client.id = cid := by
        have hp := List.find?_some hfind
        exact beq_iff_eq.mp hp
      simp only [Option.some.injEq] at hs
      subst hs
      refine ⟨?_, ?_, ⟨client, hmem, hid, rfl⟩⟩
      · intro e he
        rw [List.mem_dedup] at he
        obtain ⟨k, hk, hke⟩ := List.mem_map.mp he
        obtain ⟨hkmem, hkp⟩ := List.mem_filter.mp hk
        rw [Bool.and_eq_true] at hkp
        exact ⟨k, hkmem, beq_iff_eq.mp hkp.1, hkp.2, hke⟩
      · intro p hp
        rw [List.mem_dedup] at hp
        obtain ⟨r, hr, hrp⟩ := List.mem_map.mp hp
        obtain ⟨hrmem, hrq⟩ := List.mem_filter.mp hr
        exact ⟨r, hrmem, beq_iff_eq.mp hrq, hrp⟩
  · intro db em s hs
    unfold agent_chat_scope at hs
    cases hfind : db.clients.find? (fun c => c.email == em) with
    | none => rw [hfind] at hs; cases hs
    | some client =>
      rw [hfind] at hs
      have hmem := List.mem_of_find?_eq_some hfind
      have hem : client.email = em := by
        have hp := List.find?_some hfind
        exact beq_iff_eq.mp hp
      by_cases hempty :
          (db.apiKeys.filter
            (fun k => k.client_id == client.id && k.is_active)).isEmpty
      · simp only [hempty, if_true] at hs
        cases hs
      · simp only [hempty] at hs
        rw [if_neg (by decide)] at hs
        simp only [Option.some.injEq] at hs
        subst hs
        refine ⟨?_, ⟨client, hmem, hem, rfl, rfl⟩, rfl⟩
        intro e he
        rw [List.mem_dedup] at he
        obtain ⟨k, hk, hke⟩ := List.mem_map.mp he
        obtain ⟨hkmem, hkp⟩ := List.mem_filter.mp hk
        rw [Bool.and_eq_true] at hkp
        exact ⟨k, hkmem, beq_iff_eq.mp hkp.1, hkp.2, hke⟩

/-- Witness for claim C1 (amended): applying the traceability theorem to
the concrete database with one configured pair row produces the pair row
owning BTC-USDT for tenant c1. -/
theorem claim_C1_witness :
    ∃ r, r ∈ c1db2.clientPairs ∧ r.client_id = "c1" ∧
      r.trading_pair = "BTC-USDT" :=
  (claim_C1_scope_traceability.1 c1db2 "c1" c1scope (by decide)).2.1
    "BTC-USDT" (by decide)

/-- Counterexample to claim C1 as stated: for a tenant owning one active
credential and zero configured pair rows, the agent_chat endpoint still
resolves a scope whose allowed-pair set is the four-element default
list, so its members (SHARP-USDT among them) are not traceable to any
pair row owned by the tenant. -/
theorem claim_C1_counterexample :
    (agent_chat_scope c1db "acme@x").map ClientScope.allowed_pairs =
      some ["SHARP-USDT", "BTC-USDT", "ETH-USDT", "SOL-USDT"] ∧
    c1db.clientPairs = [] := by
  refine ⟨by decide, rfl⟩

/-- Claim C4 (amended): a decryption failure raised while provisioning
does NOT propagate: configure_client_account catches every raised error,
its decryption errors included, and converts it into the returned
failed-provisioning business result with success false. -/
theorem claim_C4_decrypt_error_swallowed :
    ∀ (d : String → Except String String) (client_name : String)
      (rec : ApiKeyRecord) (bridge : Bridge) (msg : String),
      d rec.api_key = Except.error msg →
      configure_client_account d client_name rec bridge =
        { success := false
          account_name := none
          connector := none
          error := some msg
          message := "Failed to configure Trading Bridge account" } := by
  intro d cn rec bridge msg h
  unfold configure_client_account configureBody
  rw [h]

/-- Witness for claim C4 (amended): a decrypt function failing as on
ciphertext under a foreign key yields the failed-provisioning dict. -/
theorem claim_C4_witness :
    configure_client_account foreignKeyDecrypt "Beta LLC" demoKeyRecord
      demoBridge =
      { success := false
        account_name := none
        connector := none
        error := some "InvalidToken"
        message := "Failed to configure Trading Bridge account" } :=
  claim_C4_decrypt_error_swallowed foreignKeyDecrypt "Beta LLC"
    demoKeyRecord demoBridge "InvalidToken" rfl

/-- Counterexample to claim C4 as stated: with a decrypt function that
fails on every ciphertext, the provisioning operation returns normally
with a failed-provisioning business result instead of propagating the
decryption error, because the outer except Exception catches it. -/
theorem claim_C4_counterexample :
    configure_client_account tamperedDecrypt "Acme Trading" demoKeyRecord
      demoBridge =
      { success := false
        account_name := none
        connector := none
        error := some "DecryptionError: invalid token"
        message := "Failed to configure Trading Bridge account" } := by
  decide

/-- Claim C6 (amended): on both credential-creation endpoints the
encrypted row is committed strictly before the provisioning attempt
(the event trace is commit first) and remains in the database whatever
the provisioning outcome, and both always answer with a successful
credential-creation response. In admin.py add_client_api_key a
provisioning failure surfaces as the attached classified warning; in
api_keys.py create_api_key it is only logged and the returned
APIKeyResponse is built from the payload and the committed row alone,
identical under a failing and a succeeding provisioner, with no warning
attached. -/
theorem claim_C6_commit_before_provision :
    (∀ (c : FernetCipher) (db : List ApiKeyRow) (cid : String)
      (data : KeyData) (provision : ApiKeyRow → ProvisionResult),
      (add_client_api_key c db cid data provision).1 =
        db ++ [mkStoredRow c cid data] ∧
      (add_client_api_key c db cid data provision).2.2 =
        [ProvEvent.commit, ProvEvent.provisionAttempt] ∧
      (add_client_api_key c db cid data provision).2.1.message =
        "API key added successfully" ∧
      (add_client_api_key c db cid data provision).2.1.trading_bridge_configured =
        (provision (mkStoredRow c cid data)).success ∧
      (add_client_api_key c db cid data provision).2.1.trading_bridge_warning.isSome =
        !(provision (mkStoredRow c cid data)).success ∧
      (mkStoredRow c cid data).api_key =
        EncryptionManager.encrypt c data.api_key) ∧
    (∀ (c : FernetCipher) (db : List ApiKeyRow) (cid : String)
      (data : KeyData) (provision pv2 : ApiKeyRow → ProvisionResult),
      (create_api_key c db cid data provision).1 =
        db ++ [create_api_key_row c cid data] ∧
      (create_api_key c db cid data provision).2.2 =
        [ProvEvent.commit, ProvEvent.provisionAttempt] ∧
      (create_api_key c db cid data provision).2.1 =
        apiKeyResponseOf cid data (create_api_key_row c cid data) ∧
      (create_api_key c db cid data provision).2.1 =
        (create_api_key c db cid data pv2).2.1 ∧
      (create_api_key_row c cid data).api_key =
        EncryptionManager.encrypt c data.api_key) := by
  constructor
  · intro c db cid data provision
    refine ⟨rfl, rfl, rfl, rfl, ?_, rfl⟩
    cases hsucc : (provision (mkStoredRow c cid data)).success <;>
      simp [add_client_api_key, hsucc]
  · intro c db cid data provision pv2
    exact ⟨rfl, rfl, rfl, rfl, rfl⟩

/-- Counterexample to claim C6 as stated: on the create_api_key
endpoint a provisioning failure yields a response identical to the one
a successful provisioning yields, so the failure is not attached as a
classified warning (it is only logged); the committed row is
nevertheless kept. -/
theorem claim_C6_counterexample :
    (create_api_key demoCipher [] "c1" demoKeyData demoProvisionFail).2.1 =
      (create_api_key demoCipher [] "c1" demoKeyData demoProvisionOk).2.1 ∧
    (demoProvisionFail
      (create_api_key_row demoCipher "c1" demoKeyData)).success = false ∧
    (demoProvisionOk
      (create_api_key_row demoCipher "c1" demoKeyData)).success = true ∧
    (create_api_key demoCipher [] "c1" demoKeyData demoProvisionFail).1 =
      [create_api_key_row demoCipher "c1" demoKeyData] :=
  ⟨rfl, rfl, rfl, rfl⟩

/-- Claim C7: the account-creation step is idempotent against the
modelled external service: a first call returns success, a second call
with the same name observes 409 and is likewise mapped to success by the
status handling of configure_client_account. -/
theorem claim_C7_idempotent_create :
    ∀ (accounts : List String) (name : String),
      handleCreateStatus (serviceCreate accounts name).1 = true ∧
      handleCreateStatus
        (serviceCreate (serviceCreate accounts name).2 name).1 = true ∧
      (serviceCreate (serviceCreate accounts name).2 name).1 = 409 ∧
      createAccountStep
        (CallResult.status
          (serviceCreate (serviceCreate accounts name).2 name).1 "") =
        Except.ok () := by
  intro accounts name
  by_cases h : name ∈ accounts
  · simp [serviceCreate, h, handleCreateStatus, createAccountStep]
  · simp [serviceCreate, h, handleCreateStatus, createAccountStep]

/-- Claim C8: the tool-calling loop of the chat endpoint has no round
cap: against a model that answers every request with tool calls, the
loop is still running after any number of rounds and never returns any
message, the claimed tool-use-limit-reached message included. -/
theorem claim_C8_loop_unbounded :
    ∀ fuel, chatEndpointRun allToolUse fuel = none := by
  have key : ∀ fuel i, chatToolLoop allToolUse i fuel = none := by
    intro fuel
    induction fuel with
    | zero => intro i; rfl
    | succ n ih =>
      intro i
      simp only [chatToolLoop, allToolUse]
      exact ih (i + 1)
  intro fuel
  exact key fuel 0

/-- The substring search succeeds on any decomposition witness. -/
theorem listContains_of_decomp :
    ∀ (needle p q : List Char),
      listContains needle (p ++ (needle ++ q)) = true := by
  have hpre : ∀ (p r : List Char), p.isPrefixOf (p ++ r) = true := by
    intro p r
    induction p with
    | nil => simp [List.isPrefixOf]
    | cons a t ih => simp [List.isPrefixOf, ih]
  intro needle p q
  induction p with
  | nil =>
    show listContains needle (needle ++ q) = true
    cases needle with
    | nil =>
      cases q with
      | nil => rfl
      | cons x t => simp [listContains, List.isPrefixOf]
    | cons a t =>
      simp [listContains, hpre]
  | cons x p ih =>
    simp [listContains, ih]

/-- Claim C10: any chat message whose lowercased text contains one of
the direct-command markers anywhere, not only as a leading verb, is
routed to the direct-command interpreter and causes zero requests to the
AI chat-completion provider (given a configured API key, without which
the call returns even earlier, likewise with zero requests). -/
theorem claim_C10_direct_routing :
    ∀ (message cmd : String),
      cmd ∈ directCommands →
      (∃ p q, (lowerStr message).data = p ++ (cmd.data ++ q)) →
      chatRoute true message = ChatPath.direct ∧
      aiRequests (chatRoute true message) = 0 := by
  intro message cmd hmem hdecomp
  obtain ⟨p, q, hd⟩ := hdecomp
  have hdc : isDirectCommand message = true := by
    unfold isDirectCommand
    rw [List.any_eq_true]
    refine ⟨cmd, hmem, ?_⟩
    rw [hd]
    exact listContains_of_decomp cmd.data p q
  constructor
  · simp [chatRoute, hdc]
  · simp [chatRoute, hdc, aiRequests]

/-- Witness for claim C10: the marker check occurs mid-sentence and
uppercased in the message, which is still routed directly with zero AI
requests. -/
theorem claim_C10_witness :
    chatRoute true "Please CHECK my balance" = ChatPath.direct ∧
    aiRequests (chatRoute true "Please CHECK my balance") = 0 :=
  claim_C10_direct_routing "Please CHECK my balance" "check" (by decide)
    ⟨"please ".data, " my balance".data, by decide⟩

/-- Witness for claim C5: the round trip evaluated at the concrete
cipher and a concrete plaintext. -/
theorem claim_C5_witness :
    EncryptionManager.decrypt demoCipher
      (EncryptionManager.encrypt demoCipher "hunter2") = some "hunter2" :=
  claim_C5_roundtrip demoCipher "hunter2"

/-- Witness for claim C6: the endpoint flow evaluated at a concrete
empty database, payload and failing provisioner. -/
theorem claim_C6_witness :
    (add_client_api_key demoCipher [] "c1" demoKeyData demoProvisionFail).1 =
      [] ++ [mkStoredRow demoCipher "c1" demoKeyData] ∧
    (add_client_api_key demoCipher [] "c1" demoKeyData demoProvisionFail).2.2 =
      [ProvEvent.commit, ProvEvent.provisionAttempt] ∧
    (add_client_api_key demoCipher [] "c1" demoKeyData
      demoProvisionFail).2.1.message = "API key added successfully" ∧
    (add_client_api_key demoCipher [] "c1" demoKeyData
      demoProvisionFail).2.1.trading_bridge_configured =
      (demoProvisionFail (mkStoredRow demoCipher "c1" demoKeyData)).success ∧
    (add_client_api_key demoCipher [] "c1" demoKeyData
      demoProvisionFail).2.1.trading_bridge_warning.isSome =
      !(demoProvisionFail (mkStoredRow demoCipher "c1" demoKeyData)).success ∧
    (mkStoredRow demoCipher "c1" demoKeyData).api_key =
      EncryptionManager.encrypt demoCipher demoKeyData.api_key :=
  claim_C6_commit_before_provision.1 demoCipher [] "c1" demoKeyData
    demoProvisionFail

/-- Witness for claim C7: the double-create sequence evaluated from the
empty account set. -/
theorem claim_C7_witness :
    handleCreateStatus (serviceCreate [] "client_acme_trading").1 = true ∧
    handleCreateStatus
      (serviceCreate (serviceCreate [] "client_acme_trading").2
        "client_acme_trading").1 = true ∧
    (serviceCreate (serviceCreate [] "client_acme_trading").2
      "client_acme_trading").1 = 409 ∧
    createAccountStep
      (CallResult.status
        (serviceCreate (serviceCreate [] "client_acme_trading").2
          "client_acme_trading").1 "") = Except.ok () :=
  claim_C7_idempotent_create [] "client_acme_trading"

/-- Witness for claim C8: after five tool-call rounds against the
always-tool-use model the loop has still not returned. -/
theorem claim_C8_witness : chatEndpointRun allToolUse 5 = none :=
  claim_C8_loop_unbounded 5
